import Mathlib

/-!
Verification development for the CRM-automation web application.

This file gives a shallow embedding, in Lean 4, of the parts of the source
that the specification's claims talk about:

* the template renderer `processTemplate` (webapp/src/lib/types.ts);
* the trigger matcher `emailMatchesTrigger` (lib/gmail-watch.ts and its
  extended variant with `is_reply`);
* the ClickUp webhook lifecycle helper `removeClickUpWebhookForAutomation`;
* the automation store's `createAutomation`;
* the dispatch orchestrator `executeAutomation` /
  `executeClickUpAutomation` and the two inbound handlers (the ClickUp
  webhook POST handler and the per-automation step of
  `handleGmailPushNotification`).

External network calls and the database are modelled as explicit inputs
(oracles for call outcomes) and explicit outputs (appended log rows,
updated telemetry fields, effect traces).  JavaScript `throw`/`catch` is
modelled with `Except`; machine-level concerns do not arise (all the
relevant code works on strings, booleans and small integers).
-/

namespace CRM

/-! ### Characters and JS-style string helpers -/

/-- The character `{` (written via its code point to keep it out of string
literals). -/
def lbrace : Char := Char.ofNat 123

/-- The character `}`. -/
def rbrace : Char := Char.ofNat 125

/-- The string consisting of two `{` characters. -/
def lbraces : String := String.mk [lbrace, lbrace]

/-- The string consisting of two `}` characters. -/
def rbraces : String := String.mk [rbrace, rbrace]

/-- Does `needle` occur at the head of `haystack`?  (Helper for the JS
`String.prototype.includes` model.) -/
def charsStartWith : List Char → List Char → Bool
  | [], _ => true
  | _ :: _, [] => false
  | a :: as, b :: bs => a = b && charsStartWith as bs

/-- Does `needle` occur contiguously anywhere in the second list?  Models
JS `String.prototype.includes` at the character-list level. -/
def charsContain (needle : List Char) : List Char → Bool
  | [] => needle.isEmpty
  | b :: bs => charsStartWith needle (b :: bs) || charsContain needle bs

/-- JS `hay.includes(needle)`. -/
def strIncludes (hay needle : String) : Bool :=
  charsContain needle.data hay.data

/-- JS `s.toLowerCase()` (character-wise, as `String.toLower` computes
it). -/
def jsToLower (s : String) : String :=
  String.mk (s.data.map Char.toLower)

/-- JS truthiness of an optional string: `null`/`undefined` and the empty
string are falsy. -/
def optTruthy : Option String → Bool
  | some s => s ≠ ""
  | none => false

/-! ### JS values

A small universe of JSON-like values for template data contexts.  Arrays
are not needed by any claim and are omitted; `undef` models JS
`undefined`, which behaves differently from `null` only via truthiness
(identically here). -/

inductive JsValue where
  | str (s : String)
  | num (n : Int)
  | bool (b : Bool)
  | null
  | undef
  | obj (fields : List (String × JsValue))
deriving Inhabited

/-- JS `String(value ?? '')`: nullish values print as the empty string. -/
def jsToString : JsValue → String
  | .str s => s
  | .num n => toString n
  | .bool true => "true"
  | .bool false => "false"
  | .null => ""
  | .undef => ""
  | .obj _ => "[object Object]"

/-- First binding of `key` among an object's fields (JS `key in value`
followed by `value[key]`, for plain JSON objects). -/
def findField : List (String × JsValue) → String → Option JsValue
  | [], _ => none
  | (k, v) :: fs, key => if k = key then some v else findField fs key

/-- Sequential key lookup along a dotted path, as in the loop of
`processTemplate`: descend only while the current value is a (truthy)
object that has the key; otherwise resolution fails. -/
def lookupPath : JsValue → List String → Option JsValue
  | v, [] => some v
  | .obj fs, k :: ks =>
    match findField fs k with
    | some v => lookupPath v ks
    | none => none
  | _, _ :: _ => none

/-! ### Template renderer (`processTemplate`)

`processTemplate` uses a global regex replace over `\{\{([^}]+)\}\}`:
scan left to right; at each position a match requires two `{`, then one
or more non-`}` characters (the capture), then two `}`.  `tryMatch`
decides whether a match starts at the head of the list and returns the
capture and the remainder after the match. -/

def tryMatch (l : List Char) : Option (List Char × List Char) :=
  match l with
  | c1 :: c2 :: rest =>
    if c1 = lbrace ∧ c2 = lbrace then
      if rest.takeWhile (fun c => c ≠ rbrace) = [] then none
      else
        match rest.dropWhile (fun c => c ≠ rbrace) with
        | d1 :: d2 :: tail =>
          if d1 = rbrace ∧ d2 = rbrace then
            some (rest.takeWhile (fun c => c ≠ rbrace), tail)
          else none
        | _ => none
    else none
  | _ => none

theorem tryMatch_some_length {l : List Char} {p : List Char × List Char}
    (h : tryMatch l = some p) : p.2.length < l.length := by
  match l with
  | [] => simp [tryMatch] at h
  | [c] => simp [tryMatch] at h
  | c1 :: c2 :: rest =>
    simp only [tryMatch] at h
    split at h
    · split at h
      · exact absurd h (by simp)
      · have hsplit :=
          List.takeWhile_append_dropWhile (fun c => decide (c ≠ rbrace)) rest
        split at h
        · split at h
          · rename_i d1 d2 tail heq _
            have hlen := congrArg List.length hsplit
            simp only [List.length_append, heq, List.length_cons] at hlen
            cases h
            simp only [List.length_cons]
            omega
          · exact absurd h (by simp)
        · exact absurd h (by simp)
    · exact absurd h (by simp)

/-- Drop leading whitespace characters (one side of JS `trim()`). -/
def charsTrimLeft : List Char → List Char
  | [] => []
  | c :: cs => if c.isWhitespace then charsTrimLeft cs else c :: cs

/-- JS `s.trim()`: strip whitespace from both ends. -/
def jsTrim (s : String) : String :=
  String.mk ((charsTrimLeft (charsTrimLeft s.data).reverse).reverse)

/-- Split on a separator character; models JS `s.split(sep)` for a
single-character separator (an empty input yields one empty group). -/
def splitChar (sep : Char) : List Char → List (List Char)
  | [] => [[]]
  | c :: cs =>
    if c = sep then [] :: splitChar sep cs
    else
      match splitChar sep cs with
      | g :: gs => (c :: g) :: gs
      | [] => [[c]]

/-- JS `path.split('.')`. -/
def jsSplitDot (s : String) : List String :=
  (splitChar '.' s.data).map String.mk

/-- The replacement the regex callback produces for a captured path
`cap`: resolve `cap.trim().split('.')` in the data; on success stringify
the value (nullish as empty), on failure reproduce the placeholder
verbatim. -/
def resolveTemplateVar (data : List (String × JsValue)) (cap : String) : String :=
  match lookupPath (JsValue.obj data) (jsSplitDot (jsTrim cap)) with
  | some v => jsToString v
  | none => lbraces ++ cap ++ rbraces

/-- Character-level form of `resolveTemplateVar`. -/
def replacementChars (data : List (String × JsValue)) (cap : List Char) : List Char :=
  (resolveTemplateVar data (String.mk cap)).data

/-- The global-replace scan of `processTemplate`: at each position either
a placeholder match is consumed and replaced, or one character is copied.
Structural recursion on a fuel counter keeps the definition
kernel-reducible; `renderTemplateFuel_congr` shows any fuel of at least
the input length gives the same result. -/
def renderTemplateFuel (data : List (String × JsValue)) : Nat → List Char → List Char
  | 0, _ => []
  | _ + 1, [] => []
  | fuel + 1, c :: cs =>
    match tryMatch (c :: cs) with
    | some p => replacementChars data p.1 ++ renderTemplateFuel data fuel p.2
    | none => c :: renderTemplateFuel data fuel cs

theorem renderTemplateFuel_congr (data : List (String × JsValue)) :
    ∀ (f g : Nat) (l : List Char), l.length ≤ f → l.length ≤ g →
      renderTemplateFuel data f l = renderTemplateFuel data g l := by
  intro f
  induction f with
  | zero =>
    intro g l hf _
    have : l = [] := List.length_eq_zero.mp (Nat.le_zero.mp hf)
    subst this
    cases g <;> rfl
  | succ f ih =>
    intro g l hf hg
    match l with
    | [] => cases g <;> rfl
    | c :: cs =>
      match g with
      | 0 => simp at hg
      | g + 1 =>
        simp only [renderTemplateFuel]
        cases htm : tryMatch (c :: cs) with
        | some p =>
          have hlt := tryMatch_some_length htm
          simp only [List.length_cons] at hf hg hlt
          dsimp only
          rw [ih g p.2 (by omega) (by omega)]
        | none =>
          simp only [List.length_cons] at hf hg
          dsimp only
          rw [ih g cs (by omega) (by omega)]

/-- The renderer applied with exactly enough fuel. -/
def renderTemplate (data : List (String × JsValue)) (l : List Char) : List Char :=
  renderTemplateFuel data l.length l

/-- `processTemplate(template, data)` from webapp/src/lib/types.ts. -/
def processTemplate (template : String) (data : List (String × JsValue)) : String :=
  String.mk (renderTemplate data template.data)


/-! ### Scanner lemmas for the C4 characterization -/

theorem takeWhile_all_append {p : Char → Bool} :
    ∀ (xs : List Char), (∀ x ∈ xs, p x = true) → ∀ {y : Char}, p y = false →
      ∀ (ys : List Char),
        (xs ++ y :: ys).takeWhile p = xs ∧ (xs ++ y :: ys).dropWhile p = y :: ys := by
  intro xs
  induction xs with
  | nil =>
    intro _ y hy ys
    simp [List.takeWhile, List.dropWhile, hy]
  | cons x xs ih =>
    intro hall y hy ys
    have hx : p x = true := hall x (List.mem_cons_self x xs)
    have hrest := ih (fun z hz => hall z (List.mem_cons_of_mem x hz)) hy ys
    simp [List.takeWhile, List.dropWhile, hx, hrest.1, hrest.2]

theorem tryMatch_head_not_lbrace {c : Char} (hc : c ≠ lbrace) (cs : List Char) :
    tryMatch (c :: cs) = none := by
  match cs with
  | [] => rfl
  | d :: rest => simp [tryMatch, hc]

theorem tryMatch_boundary {cap : List Char} (hne : cap ≠ [])
    (hcap : ∀ x ∈ cap, x ≠ rbrace) (t : List Char) :
    tryMatch (lbrace :: lbrace :: (cap ++ rbrace :: rbrace :: t)) = some (cap, t) := by
  have hall : ∀ x ∈ cap, (fun c => decide (c ≠ rbrace)) x = true := by
    intro x hx
    simpa using hcap x hx
  have hy : (fun c => decide (c ≠ rbrace)) rbrace = false := by simp
  have hsplit := takeWhile_all_append cap hall hy (rbrace :: t)
  simp only [tryMatch]
  rw [hsplit.1, hsplit.2]
  simp [hne]

theorem renderTemplate_nil (data : List (String × JsValue)) :
    renderTemplate data [] = [] := rfl

theorem renderTemplate_skip {c : Char} (hc : c ≠ lbrace)
    (data : List (String × JsValue)) (cs : List Char) :
    renderTemplate data (c :: cs) = c :: renderTemplate data cs := by
  unfold renderTemplate
  simp only [List.length_cons, renderTemplateFuel, tryMatch_head_not_lbrace hc]

theorem renderTemplate_match {cap : List Char} (hne : cap ≠ [])
    (hcap : ∀ x ∈ cap, x ≠ rbrace) (data : List (String × JsValue)) (t : List Char) :
    renderTemplate data (lbrace :: lbrace :: (cap ++ rbrace :: rbrace :: t))
      = replacementChars data cap ++ renderTemplate data t := by
  unfold renderTemplate
  have hlen : (lbrace :: lbrace :: (cap ++ rbrace :: rbrace :: t)).length
      = t.length + cap.length + 4 := by
    simp [List.length_cons, List.length_append]
    omega
  rw [hlen]
  simp only [renderTemplateFuel, tryMatch_boundary hne hcap]
  congr 1
  exact renderTemplateFuel_congr data (t.length + cap.length + 3) t.length t
    (by omega) (Nat.le_refl _)

theorem renderTemplate_append (data : List (String × JsValue)) :
    ∀ (s : List Char), (∀ x ∈ s, x ≠ lbrace) →
      ∀ {cap : List Char}, cap ≠ [] → (∀ x ∈ cap, x ≠ rbrace) →
        ∀ (t : List Char),
          renderTemplate data (s ++ lbrace :: lbrace :: (cap ++ rbrace :: rbrace :: t))
            = s ++ replacementChars data cap ++ renderTemplate data t := by
  intro s
  induction s with
  | nil =>
    intro _ cap hne hcap t
    simpa using renderTemplate_match hne hcap data t
  | cons c s ih =>
    intro hs cap hne hcap t
    have hc : c ≠ lbrace := hs c (List.mem_cons_self c s)
    have ihs := ih (fun z hz => hs z (List.mem_cons_of_mem c hz)) hne hcap t
    simp only [List.cons_append, renderTemplate_skip hc, ihs]

theorem string_mk_data (s : String) : String.mk s.data = s := by
  cases s
  rfl

/-! ### Claim C4: placeholder resolution policy of `processTemplate` -/

/-- C4: `processTemplate` replaces each placeholder whose dotted path
fully resolves by sequential key lookup with the stringified value
(nullish leaves print as the empty string), leaves every placeholder
whose path fails to resolve verbatim in the output, and in particular
`processTemplate("Hi \x7b\x7ba.b\x7d\x7d", \x7ba:\x7bb:"X"\x7d\x7d)` is `"Hi X"` while
the unresolved `a.c` placeholder stays verbatim. -/
theorem processTemplate_resolution :
    (∀ (data : List (String × JsValue)) (s cap t : String),
        (∀ x ∈ s.data, x ≠ lbrace) → cap ≠ "" → (∀ x ∈ cap.data, x ≠ rbrace) →
        processTemplate (s ++ lbraces ++ cap ++ rbraces ++ t) data
          = s ++ resolveTemplateVar data cap ++ processTemplate t data)
    ∧ (∀ (data : List (String × JsValue)) (cap : String) (v : JsValue),
        lookupPath (JsValue.obj data) (jsSplitDot (jsTrim cap)) = some v →
        resolveTemplateVar data cap = jsToString v)
    ∧ (∀ (data : List (String × JsValue)) (cap : String),
        lookupPath (JsValue.obj data) (jsSplitDot (jsTrim cap)) = none →
        resolveTemplateVar data cap = lbraces ++ cap ++ rbraces)
    ∧ jsToString JsValue.null = ""
    ∧ jsToString JsValue.undef = ""
    ∧ processTemplate "Hi \x7b\x7ba.b\x7d\x7d"
        [("a", JsValue.obj [("b", JsValue.str "X")])] = "Hi X"
    ∧ processTemplate "Hi \x7b\x7ba.c\x7d\x7d"
        [("a", JsValue.obj [("b", JsValue.str "X")])] = "Hi \x7b\x7ba.c\x7d\x7d"
    ∧ processTemplate "\x7b\x7ba.b\x7d\x7d"
        [("a", JsValue.obj [("b", JsValue.null)])] = "" := by
  refine ⟨?_, ?_, ?_, rfl, rfl, by decide, by decide, by decide⟩
  · intro data s cap t hs hne hcap
    obtain ⟨sl⟩ := s
    obtain ⟨cl⟩ := cap
    obtain ⟨tl⟩ := t
    have hne2 : cl ≠ [] := by
      intro h
      exact hne (by simp [h])
    have hlist : (((sl ++ [lbrace, lbrace]) ++ cl) ++ [rbrace, rbrace]) ++ tl
        = sl ++ lbrace :: lbrace :: (cl ++ rbrace :: rbrace :: tl) := by
      simp [List.append_assoc]
    show String.mk
        (renderTemplate data ((((sl ++ [lbrace, lbrace]) ++ cl) ++ [rbrace, rbrace]) ++ tl))
      = _
    rw [hlist, renderTemplate_append data sl hs hne2 hcap tl]
    show String.mk ((sl ++ (resolveTemplateVar data (String.mk cl)).data)
        ++ renderTemplate data tl) = _
    generalize resolveTemplateVar data (String.mk cl) = r
    obtain ⟨rl⟩ := r
    rfl
  · intro data cap v h
    simp [resolveTemplateVar, h]
  · intro data cap h
    simp [resolveTemplateVar, h]

/-- Closed instance of the C4 theorem: the general characterization applied
at a concrete prefix, capture, suffix and data context. -/
theorem processTemplate_resolution_witness :
    processTemplate ("Dear " ++ lbraces ++ "user.name" ++ rbraces ++ "!")
        [("user", JsValue.obj [("name", JsValue.str "Ada")])]
      = "Dear " ++ resolveTemplateVar
          [("user", JsValue.obj [("name", JsValue.str "Ada")])] "user.name"
        ++ processTemplate "!" [("user", JsValue.obj [("name", JsValue.str "Ada")])] :=
  processTemplate_resolution.1 [("user", JsValue.obj [("name", JsValue.str "Ada")])]
    "Dear " "user.name" "!" (by decide) (by decide) (by decide)

/-! ### Trigger matcher (`emailMatchesTrigger`)

Extracted email data as produced by `extractEmailData`, restricted to the
fields the matcher and the claims use (the source fields `from` and `to`
are Lean keywords and are called `from_addr`/`to_addr` here). -/

structure EmailData where
  id : String := ""
  threadId : String := ""
  from_addr : String := ""
  to_addr : String := ""
  subject : String := ""
  date : String := ""
  snippet : String := ""
  body : String := ""
  htmlBody : String := ""
  hasAttachment : Bool := false
  attachmentCount : Nat := 0
  isReply : Bool := false
  inReplyTo : Option String := none
  references : List String := []
deriving DecidableEq

/-- The `GmailEmailTriggerConfig` filter fields (lib/types.ts); an absent
field is `none`.  `label_ids` is carried for completeness but never read
by the matcher. -/
structure GmailEmailTriggerConfig where
  from_filter : Option String := none
  to_filter : Option String := none
  subject_contains : Option String := none
  has_attachment : Option Bool := none
  is_reply : Option Bool := none
  label_ids : Option (List String) := none
deriving DecidableEq

/-- One substring filter dimension: a truthy configured filter requires a
case-insensitive substring hit; an absent (or empty, hence falsy) filter
is vacuously satisfied. -/
def substrCheck (field : String) : Option String → Bool
  | some f => if f = "" then true else strIncludes (jsToLower field) (jsToLower f)
  | none => true

/-- One boolean filter dimension: a configured value must equal the
extracted one exactly; `undefined` is vacuously satisfied. -/
def boolCheck (actual : Bool) : Option Bool → Bool
  | some b => b = actual
  | none => true

/-- `emailMatchesTrigger(emailData, triggerConfig)` from
lib/gmail-watch.ts (extended variant with the `is_reply` check): all
configured filter dimensions are ANDed; each early `return false` of the
source is one failing conjunct here. -/
def emailMatchesTrigger (emailData : EmailData) (triggerConfig : GmailEmailTriggerConfig) : Bool :=
  substrCheck emailData.from_addr triggerConfig.from_filter &&
  substrCheck emailData.to_addr triggerConfig.to_filter &&
  substrCheck emailData.subject triggerConfig.subject_contains &&
  boolCheck emailData.hasAttachment triggerConfig.has_attachment &&
  boolCheck emailData.isReply triggerConfig.is_reply

/-- The trigger config with no filter field set. -/
def emptyTriggerConfig : GmailEmailTriggerConfig :=
  { from_filter := none, to_filter := none, subject_contains := none,
    has_attachment := none, is_reply := none, label_ids := none }

/-! ### Claim C5: the empty config matches every email -/

/-- C5: with no filter fields set every dimension is vacuously true, so
`emailMatchesTrigger` accepts every extracted email data value. -/
theorem emailMatchesTrigger_empty_config (emailData : EmailData) :
    emailMatchesTrigger emailData emptyTriggerConfig = true := rfl

/-! ### Claim C9: unsetting filter fields only enlarges the match set -/

/-- `weaker o' o` holds when the optional filter field `o'` is obtained
from `o` by either keeping it or unsetting it. -/
def weaker {α : Type} : Option α → Option α → Prop
  | none, _ => True
  | some x, some y => x = y
  | some _, none => False

/-- A config `c'` is obtained from `c` by unsetting zero or more filter
fields. -/
def configWeaker (c' c : GmailEmailTriggerConfig) : Prop :=
  weaker c'.from_filter c.from_filter ∧
  weaker c'.to_filter c.to_filter ∧
  weaker c'.subject_contains c.subject_contains ∧
  weaker c'.has_attachment c.has_attachment ∧
  weaker c'.is_reply c.is_reply

theorem substrCheck_weaker {field : String} {o' o : Option String}
    (hw : weaker o' o) (h : substrCheck field o = true) :
    substrCheck field o' = true := by
  match o', o with
  | none, _ => rfl
  | some x, some y =>
    have hxy : x = y := hw
    rw [substrCheck, hxy]
    rw [substrCheck] at h
    exact h
  | some _, none => exact absurd hw not_false

theorem boolCheck_weaker {actual : Bool} {o' o : Option Bool}
    (hw : weaker o' o) (h : boolCheck actual o = true) :
    boolCheck actual o' = true := by
  match o', o with
  | none, _ => rfl
  | some x, some y =>
    have hxy : x = y := hw
    rw [boolCheck, hxy]
    rw [boolCheck] at h
    exact h
  | some _, none => exact absurd hw not_false

/-- C9: `emailMatchesTrigger` is monotone in the filter configuration:
unsetting filter fields never shrinks the set of matching emails (each
dimension is a conjunct that unsetting turns vacuously true). -/
theorem emailMatchesTrigger_monotone (emailData : EmailData)
    (c' c : GmailEmailTriggerConfig) (hw : configWeaker c' c)
    (h : emailMatchesTrigger emailData c = true) :
    emailMatchesTrigger emailData c' = true := by
  obtain ⟨h1, h2, h3, h4, h5⟩ := hw
  simp only [emailMatchesTrigger, Bool.and_eq_true] at h ⊢
  exact ⟨⟨⟨⟨substrCheck_weaker h1 h.1.1.1.1, substrCheck_weaker h2 h.1.1.1.2⟩,
    substrCheck_weaker h3 h.1.1.2⟩, boolCheck_weaker h4 h.1.2⟩,
    boolCheck_weaker h5 h.2⟩

/-- Closed instance of C9: a config with `from_filter` and
`has_attachment` set matches a sample email, and the config obtained by
unsetting `has_attachment` still matches it. -/
theorem emailMatchesTrigger_monotone_witness :
    emailMatchesTrigger
      { from_addr := "sales@bigcorp.com", hasAttachment := true }
      { from_filter := some "corp" } = true :=
  emailMatchesTrigger_monotone
    { from_addr := "sales@bigcorp.com", hasAttachment := true }
    { from_filter := some "corp" }
    { from_filter := some "corp", has_attachment := some true }
    (by refine ⟨rfl, trivial, trivial, trivial, trivial⟩)
    (by decide)

/-! ### Claim C8: `removeClickUpWebhookForAutomation`

`deleteClickUpWebhook` (lib/clickup-webhooks.ts) throws on a non-2xx
provider response; the outcome of the single provider call is an input
here.  `removeClickUpWebhookForAutomation` wraps that call in
`try/catch` (the comment in the source reads "Continue anyway"), then
unconditionally clears the stored id; modelling the whole function with
an `Except` result makes "no exception propagates to the caller" a
provable statement rather than an implicit one. -/

/-- Outcome of the provider-side `DELETE /webhook/:id` call. -/
def deleteClickUpWebhook (providerOk : Bool) (_webhookId : String) : Except String Unit :=
  if providerOk then Except.ok ()
  else Except.error "Failed to delete ClickUp webhook: provider error"

/-- Result state of `removeClickUpWebhookForAutomation`: the stored
`clickup_webhook_id` after the call, and whether the provider delete was
attempted. -/
structure RemoveWebhookResult where
  clickup_webhook_id : Option String
  deleteAttempted : Bool
deriving DecidableEq

/-- `removeClickUpWebhookForAutomation` (lib/clickup-webhooks.ts): look
up the stored provider webhook id; the guard is the JS truthiness test
`if (automation?.clickup_webhook_id)`, so only a non-null, nonempty id
triggers the provider delete (any failure swallowed) followed by the
unconditional clear; a null — or empty-string — stored id skips both and
leaves the state unchanged. -/
def removeClickUpWebhookForAutomation (stored : Option String) (providerOk : Bool) :
    Except String RemoveWebhookResult :=
  if optTruthy stored then
    match deleteClickUpWebhook providerOk (stored.getD "") with
    | Except.ok _ =>
      Except.ok { clickup_webhook_id := none, deleteAttempted := true }
    | Except.error _ =>
      Except.ok { clickup_webhook_id := none, deleteAttempted := true }
  else
    Except.ok { clickup_webhook_id := stored, deleteAttempted := false }

/-- C8: when a (truthy: non-null, nonempty) `clickup_webhook_id` is
stored, the provider delete is attempted and the stored id is cleared
even when the provider call fails, and the function always returns
normally (`Except.ok`, so no exception reaches the caller); when no
truthy id is stored — the column is null, or holds the empty string the
truthiness guard rejects — the stored state is left unchanged and no
delete is attempted. -/
theorem removeClickUpWebhook_clears_id :
    (∀ (wid : String) (providerOk : Bool), wid ≠ "" →
      removeClickUpWebhookForAutomation (some wid) providerOk
        = Except.ok { clickup_webhook_id := none, deleteAttempted := true })
    ∧ (∀ providerOk : Bool,
      removeClickUpWebhookForAutomation none providerOk
        = Except.ok { clickup_webhook_id := none, deleteAttempted := false })
    ∧ (∀ providerOk : Bool,
      removeClickUpWebhookForAutomation (some "") providerOk
        = Except.ok { clickup_webhook_id := some "", deleteAttempted := false }) := by
  refine ⟨?_, ?_, ?_⟩
  · intro wid providerOk hne
    have ht : optTruthy (some wid) = true := by
      simp [optTruthy, hne]
    cases providerOk <;>
      simp [removeClickUpWebhookForAutomation, ht, deleteClickUpWebhook]
  · intro providerOk
    rfl
  · intro providerOk
    rfl

/-- Closed instance of the C8 theorem: a stored id `"wh-1"` whose
provider delete fails is still attempted and cleared, with no exception
surfaced. -/
theorem removeClickUpWebhook_clears_id_witness :
    removeClickUpWebhookForAutomation (some "wh-1") false
      = Except.ok { clickup_webhook_id := none, deleteAttempted := true } :=
  removeClickUpWebhook_clears_id.1 "wh-1" false (by decide)

/-! ### Automation data model (lib/types.ts) -/

inductive TriggerType where
  | gmail_email
  | gmail_label
  | schedule
  | clickup_task_created
  | clickup_task_updated
  | clickup_task_deleted
  | clickup_task_status_updated
  | clickup_task_assignee_updated
  | clickup_task_comment_posted
deriving DecidableEq

inductive ActionType where
  | clickup_create_task
  | clickup_add_comment
  | send_email
deriving DecidableEq

/-- Printed form of an `ActionType` as interpolated into error
messages. -/
def actionTypeStr : ActionType → String
  | ActionType.clickup_create_task => "clickup_create_task"
  | ActionType.clickup_add_comment => "clickup_add_comment"
  | ActionType.send_email => "send_email"

inductive AutomationStatus where
  | active
  | paused
  | error
deriving DecidableEq

structure GmailLabelTriggerConfig where
  label_id : String
  label_name : String
deriving DecidableEq

structure ScheduleTriggerConfig where
  cron_expression : String
  timezone : String
deriving DecidableEq

/-- `ClickUpTaskTriggerConfig` (lib/types.ts): required workspace id,
optional scope narrowing, and the resolved provider event names. -/
structure ClickUpTaskTriggerConfig where
  team_id : String
  space_id : Option String := none
  folder_id : Option String := none
  list_id : Option String := none
  list_name : Option String := none
  events : List String
deriving DecidableEq

inductive TriggerConfig where
  | gmailEmail (c : GmailEmailTriggerConfig)
  | gmailLabel (c : GmailLabelTriggerConfig)
  | schedule (c : ScheduleTriggerConfig)
  | clickupTask (c : ClickUpTaskTriggerConfig)
deriving DecidableEq

structure ClickUpCreateTaskActionConfig where
  list_id : String
  list_name : Option String := none
  title_template : String
  description_template : Option String := none
  priority : Option Nat := none
  assignees : Option (List String) := none
  tags : Option (List String) := none
deriving DecidableEq

structure ClickUpAddCommentActionConfig where
  task_id : String
  comment_template : String
deriving DecidableEq

structure SendEmailActionConfig where
  to_template : String
  subject_template : String
  body_template : String
deriving DecidableEq

inductive ActionConfig where
  | clickupCreateTask (c : ClickUpCreateTaskActionConfig)
  | clickupAddComment (c : ClickUpAddCommentActionConfig)
  | sendEmailCfg (c : SendEmailActionConfig)
deriving DecidableEq

/-- The `automations` row (lib/types.ts `Automation`). -/
structure Automation where
  id : String
  user_id : String
  name : String
  description : Option String := none
  trigger_type : TriggerType
  trigger_config : TriggerConfig
  action_type : ActionType
  action_config : ActionConfig
  webhook_id : Option String := none
  webhook_secret : Option String := none
  gmail_history_id : Option String := none
  gmail_watch_expiration : Option String := none
  clickup_webhook_id : Option String := none
  status : AutomationStatus := AutomationStatus.active
  last_run_at : Option String := none
  last_error : Option String := none
  run_count : Nat := 0
  created_at : String := ""
  updated_at : String := ""
deriving DecidableEq

/-- The other handlers read `automation.trigger_config as
ClickUpTaskTriggerConfig`; the cast is only meaningful for the matching
variant (theorems are stated under that hypothesis). -/
def asClickUpTaskConfig : TriggerConfig → ClickUpTaskTriggerConfig
  | TriggerConfig.clickupTask c => c
  | _ => { team_id := "", events := [] }

/-- `automation.trigger_config as GmailEmailTriggerConfig`. -/
def asGmailEmailConfig : TriggerConfig → GmailEmailTriggerConfig
  | TriggerConfig.gmailEmail c => c
  | _ => {}

/-- `automation.action_config as ClickUpCreateTaskActionConfig`. -/
def asCreateTaskConfig : ActionConfig → ClickUpCreateTaskActionConfig
  | ActionConfig.clickupCreateTask c => c
  | _ => { list_id := "", title_template := "" }

/-- `automation.action_config as SendEmailActionConfig`. -/
def asSendEmailConfig : ActionConfig → SendEmailActionConfig
  | ActionConfig.sendEmailCfg c => c
  | _ => { to_template := "", subject_template := "", body_template := "" }

/-- The `profiles` row, restricted to the token fields the engine
reads. -/
structure Profile where
  id : String
  clickup_access_token : Option String := none
  google_access_token : Option String := none
  google_refresh_token : Option String := none
  google_email : Option String := none
deriving DecidableEq

/-! ### Action dispatch (`executeAutomation`, webhooks/automation/route.ts)

External API calls are modelled by their outcomes, supplied as inputs;
each call that the dispatched code performs is recorded as an
`ActionEffect`, so theorems can count calls. -/

inductive ActionEffect where
  | createTaskCall (token listId name : String) (description : Option String)
  | sendEmailCall (token to_addr subject body : String)
  | refreshCall (refreshToken : String)
deriving DecidableEq

def ActionEffect.isSendEmailCall : ActionEffect → Bool
  | ActionEffect.sendEmailCall _ _ _ _ => true
  | _ => false

def ActionEffect.isRefreshCall : ActionEffect → Bool
  | ActionEffect.refreshCall _ => true
  | _ => false

/-- Outcomes of the provider HTTP calls a single dispatch can make: an
error is the HTTP status plus the response body text. -/
structure ExternalBehavior where
  createTaskHttp : Except (Nat × String) JsValue
  gmailSendHttp : Except (Nat × String) JsValue

/-- `createTask` (lib/clickup.ts, via `clickUpRequest`): performs one
POST and throws `ClickUp API error: ...` on a non-2xx response. -/
def createTask (token listId name : String) (description : Option String)
    (http : Except (Nat × String) JsValue) :
    Except String JsValue × List ActionEffect :=
  (match http with
    | Except.ok v => Except.ok v
    | Except.error e => Except.error ("ClickUp API error: " ++ e.2),
   [ActionEffect.createTaskCall token listId name description])

/-- `sendEmail` (lib/google.ts): performs exactly one send call with the
given access token and throws `Failed to send email: ...` on any non-2xx
response — there is no refresh or retry in this function. -/
def sendEmail (token to_addr subject body : String)
    (http : Except (Nat × String) JsValue) :
    Except String JsValue × List ActionEffect :=
  (match http with
    | Except.ok v => Except.ok v
    | Except.error e => Except.error ("Failed to send email: " ++ e.2),
   [ActionEffect.sendEmailCall token to_addr subject body])

/-- The `switch (automation.action_type)` body of `executeAutomation`
(webhooks/automation/route.ts): token guards, template rendering, one
provider call; any missing token or unknown action type throws. -/
def runAction (auto : Automation) (profile : Profile)
    (triggerData : List (String × JsValue)) (ext : ExternalBehavior) :
    Except String JsValue × List ActionEffect :=
  match auto.action_type with
  | ActionType.clickup_create_task =>
    let config := asCreateTaskConfig auto.action_config
    if optTruthy profile.clickup_access_token then
      let token := profile.clickup_access_token.getD ""
      let title := processTemplate config.title_template triggerData
      let description := config.description_template.map
        (fun t => processTemplate t triggerData)
      createTask token config.list_id title description ext.createTaskHttp
    else (Except.error "ClickUp not connected", [])
  | ActionType.send_email =>
    let config := asSendEmailConfig auto.action_config
    if optTruthy profile.google_access_token then
      let token := profile.google_access_token.getD ""
      sendEmail token
        (processTemplate config.to_template triggerData)
        (processTemplate config.subject_template triggerData)
        (processTemplate config.body_template triggerData)
        ext.gmailSendHttp
    else (Except.error "Gmail not connected", [])
  | ActionType.clickup_add_comment =>
    (Except.error ("Unknown action type: " ++ actionTypeStr ActionType.clickup_add_comment), [])

/-- A row of `automation_logs` as written by `createAutomationLog`,
restricted to the fields the claims talk about. -/
structure LogRow where
  automation_id : String
  status : String
  error_message : Option String
deriving DecidableEq

/-- What one dispatch attempt returns and persists: the handler result,
the log rows appended, the updated telemetry columns of the automation
row, and the provider calls made. -/
structure ExecOutcome where
  success : Bool
  errorMsg : Option String
  newLogs : List LogRow
  run_count : Nat
  last_run_at : Option String
  last_error : Option String
  effects : List ActionEffect

/-- The shared `try`/`catch` tail of `executeAutomation` and
`executeClickUpAutomation` (the two files contain the identical logging
and telemetry-update code): a success writes a `success` log row and
sets `run_count := run_count + 1`, `last_error := null`; a caught error
writes an `error` log row and sets `last_error` — without touching
`run_count`.  Both update `last_run_at`. -/
def executeAutomationCore (auto : Automation)
    (actionResult : Except String JsValue × List ActionEffect) (now : String) :
    ExecOutcome :=
  match actionResult with
  | (Except.ok _, effs) =>
    { success := true, errorMsg := none,
      newLogs := [{ automation_id := auto.id, status := "success", error_message := none }],
      run_count := auto.run_count + 1,
      last_run_at := some now,
      last_error := none,
      effects := effs }
  | (Except.error m, effs) =>
    { success := false, errorMsg := some m,
      newLogs := [{ automation_id := auto.id, status := "error", error_message := some m }],
      run_count := auto.run_count,
      last_run_at := some now,
      last_error := some m,
      effects := effs }

/-- `executeAutomation` (webhooks/automation/route.ts): fetch the owning
profile (a missing profile throws into the catch), run the action, then
log and update telemetry. -/
def executeAutomation (auto : Automation) (profile : Option Profile)
    (triggerData : List (String × JsValue)) (ext : ExternalBehavior) (now : String) :
    ExecOutcome :=
  executeAutomationCore auto
    (match profile with
      | none => (Except.error "User profile not found", [])
      | some p => runAction auto p triggerData ext)
    now

/-- The `switch` body of `executeClickUpAutomation` (ClickUp webhook
route): only `send_email` is supported; everything else throws. -/
def runClickUpAction (auto : Automation) (profile : Profile)
    (triggerData : List (String × JsValue)) (ext : ExternalBehavior) :
    Except String JsValue × List ActionEffect :=
  match auto.action_type with
  | ActionType.send_email =>
    let config := asSendEmailConfig auto.action_config
    if optTruthy profile.google_access_token then
      let token := profile.google_access_token.getD ""
      sendEmail token
        (processTemplate config.to_template triggerData)
        (processTemplate config.subject_template triggerData)
        (processTemplate config.body_template triggerData)
        ext.gmailSendHttp
    else (Except.error "Gmail not connected", [])
  | t =>
    (Except.error ("Unsupported action type for ClickUp trigger: " ++ actionTypeStr t), [])

/-- `executeClickUpAutomation` (ClickUp webhook route): same logging and
telemetry tail as `executeAutomation`. -/
def executeClickUpAutomation (auto : Automation) (profile : Option Profile)
    (triggerData : List (String × JsValue)) (ext : ExternalBehavior) (now : String) :
    ExecOutcome :=
  executeAutomationCore auto
    (match profile with
      | none => (Except.error "User profile not found", [])
      | some p => runClickUpAction auto p triggerData ext)
    now

/-! ### Claim C1: log row and telemetry per dispatch attempt -/

theorem executeAutomationCore_spec (auto : Automation)
    (ar : Except String JsValue × List ActionEffect) (now : String) :
    (executeAutomationCore auto ar now).newLogs.length = 1
    ∧ (executeAutomationCore auto ar now).last_run_at = some now
    ∧ ((executeAutomationCore auto ar now).success = true →
        (executeAutomationCore auto ar now).newLogs
          = [{ automation_id := auto.id, status := "success", error_message := none }]
        ∧ (executeAutomationCore auto ar now).run_count = auto.run_count + 1
        ∧ (executeAutomationCore auto ar now).last_error = none)
    ∧ ((executeAutomationCore auto ar now).success = false →
        (∃ m, (executeAutomationCore auto ar now).newLogs
            = [{ automation_id := auto.id, status := "error", error_message := some m }]
          ∧ (executeAutomationCore auto ar now).last_error = some m)
        ∧ (executeAutomationCore auto ar now).run_count = auto.run_count)
    ∧ auto.run_count ≤ (executeAutomationCore auto ar now).run_count := by
  obtain ⟨res, effs⟩ := ar
  cases res with
  | ok v =>
    refine ⟨rfl, rfl, fun _ => ⟨rfl, rfl, rfl⟩, ?_, Nat.le_succ _⟩
    intro hfalse
    exact absurd hfalse (by simp [executeAutomationCore])
  | error m =>
    refine ⟨rfl, rfl, ?_, fun _ => ⟨⟨m, rfl, rfl⟩, rfl⟩, Nat.le_refl _⟩
    intro htrue
    exact absurd htrue (by simp [executeAutomationCore])

/-- C1 (amended): every dispatch attempt that reaches the
action-execution stage — through either `executeAutomation` or
`executeClickUpAutomation`, whatever the action type and whether the
action succeeds or throws — persists exactly one `AutomationLog` row
(`success` or `error`) and updates `last_run_at` and `last_error`; but
`run_count` is incremented only on successful attempts and left
unchanged on failed ones, so it counts successes and is monotonically
non-decreasing. -/
theorem dispatch_persists_log_and_telemetry
    (auto : Automation) (profile : Option Profile) (td : List (String × JsValue))
    (ext : ExternalBehavior) (now : String) (r : ExecOutcome)
    (hr : r = executeAutomation auto profile td ext now
          ∨ r = executeClickUpAutomation auto profile td ext now) :
    r.newLogs.length = 1
    ∧ r.last_run_at = some now
    ∧ (r.success = true →
        r.newLogs = [{ automation_id := auto.id, status := "success", error_message := none }]
        ∧ r.run_count = auto.run_count + 1 ∧ r.last_error = none)
    ∧ (r.success = false →
        (∃ m, r.newLogs
            = [{ automation_id := auto.id, status := "error", error_message := some m }]
          ∧ r.last_error = some m)
        ∧ r.run_count = auto.run_count)
    ∧ auto.run_count ≤ r.run_count := by
  rcases hr with hr | hr <;> subst hr <;> exact executeAutomationCore_spec auto _ now

/-- Sample automation for the C1 scenario: `send_email` action,
`run_count` currently 5. -/
def autoC1 : Automation :=
  { id := "auto-1", user_id := "user-1", name := "notify",
    trigger_type := TriggerType.gmail_email,
    trigger_config := TriggerConfig.gmailEmail {},
    action_type := ActionType.send_email,
    action_config := ActionConfig.sendEmailCfg
      { to_template := "a@b.c", subject_template := "s", body_template := "b" },
    status := AutomationStatus.active, run_count := 5 }

/-- Owning profile with no Gmail token connected, so the `send_email`
dispatch throws `Gmail not connected`. -/
def profC1 : Profile := { id := "user-1" }

/-- Concrete provider behavior (never reached in the C1 scenario). -/
def extC1 : ExternalBehavior :=
  { createTaskHttp := Except.error (500, "boom"),
    gmailSendHttp := Except.error (500, "boom") }

/-- C1 counterexample to the claim as stated: a dispatch attempt that
reaches the action-execution stage and fails writes its error log row
but leaves `run_count` at 5 — `run_count` is not updated on failed
attempts, so it does not reflect every attempt. -/
theorem run_count_unchanged_on_failed_attempt :
    (executeAutomation autoC1 (some profC1) [] extC1 "t0").success = false
    ∧ (executeAutomation autoC1 (some profC1) [] extC1 "t0").newLogs.length = 1
    ∧ (executeAutomation autoC1 (some profC1) [] extC1 "t0").last_error
        = some "Gmail not connected"
    ∧ (executeAutomation autoC1 (some profC1) [] extC1 "t0").run_count = 5
    ∧ ¬ (executeAutomation autoC1 (some profC1) [] extC1 "t0").run_count = 5 + 1 := by
  refine ⟨rfl, rfl, rfl, rfl, ?_⟩
  decide

/-- Closed instance of the amended C1 theorem at the concrete failing
dispatch. -/
theorem dispatch_persists_log_and_telemetry_witness :
    (executeAutomation autoC1 (some profC1) [] extC1 "t0").newLogs.length = 1
    ∧ autoC1.run_count ≤ (executeAutomation autoC1 (some profC1) [] extC1 "t0").run_count :=
  ⟨(dispatch_persists_log_and_telemetry autoC1 (some profC1) [] extC1 "t0" _ (Or.inl rfl)).1,
   (dispatch_persists_log_and_telemetry autoC1 (some profC1) [] extC1 "t0" _ (Or.inl rfl)).2.2.2.2⟩

/-! ### Claim C3: `send_email` dispatch and the 401 scenario -/

theorem runAction_send_email (auto : Automation) (profile : Profile)
    (td : List (String × JsValue)) (ext : ExternalBehavior)
    (ha : auto.action_type = ActionType.send_email)
    (ht : optTruthy profile.google_access_token = true) :
    runAction auto profile td ext
      = sendEmail (profile.google_access_token.getD "")
          (processTemplate (asSendEmailConfig auto.action_config).to_template td)
          (processTemplate (asSendEmailConfig auto.action_config).subject_template td)
          (processTemplate (asSendEmailConfig auto.action_config).body_template td)
          ext.gmailSendHttp := by
  unfold runAction
  rw [ha, ht]
  simp

/-- C3 (amended): the `send_email` dispatch of the orchestrator performs
exactly one Gmail send call with the stored access token and performs no
token refresh; any send failure — a 401 auth failure included — is
surfaced as the failure of the dispatch attempt without a refresh or a
retried send. -/
theorem send_email_dispatch_no_retry
    (auto : Automation) (profile : Profile) (td : List (String × JsValue))
    (ext : ExternalBehavior) (now : String) (r : ExecOutcome)
    (ha : auto.action_type = ActionType.send_email)
    (ht : optTruthy profile.google_access_token = true)
    (hr : r = executeAutomation auto (some profile) td ext now) :
    (r.effects.filter ActionEffect.isSendEmailCall).length = 1
    ∧ (r.effects.filter ActionEffect.isRefreshCall).length = 0
    ∧ (∀ (st : Nat) (bodyText : String),
        ext.gmailSendHttp = Except.error (st, bodyText) →
        r.success = false
        ∧ r.last_error = some ("Failed to send email: " ++ bodyText)) := by
  subst hr
  simp only [executeAutomation]
  rw [runAction_send_email auto profile td ext ha ht]
  rcases hsend : ext.gmailSendHttp with e | v
  · obtain ⟨st0, body0⟩ := e
    refine ⟨rfl, rfl, ?_⟩
    intro st bodyText heq
    cases heq
    exact ⟨rfl, rfl⟩
  · refine ⟨rfl, rfl, ?_⟩
    intro st bodyText habs
    cases habs

/-- Modelled from the spec: the claimed `send_email` dispatch behavior —
"on a transient auth failure, performs one token refresh-and-retry
before surfacing failure".  The orchestrator's code (route.ts together
with `sendEmail` in lib/google.ts) contains no such refresh-and-retry;
this definition exists only to state the divergence. -/
def specSendEmailWithRetry (token to_addr subject body : String)
    (refreshToken : Option String) (newToken : String)
    (firstHttp retryHttp : Except (Nat × String) JsValue) :
    Except String JsValue × List ActionEffect :=
  match firstHttp with
  | Except.ok v => (Except.ok v, [ActionEffect.sendEmailCall token to_addr subject body])
  | Except.error e =>
    if e.1 = 401 then
      match refreshToken with
      | some rt =>
        (match retryHttp with
          | Except.ok v => Except.ok v
          | Except.error e2 => Except.error ("Failed to send email: " ++ e2.2),
         [ActionEffect.sendEmailCall token to_addr subject body,
          ActionEffect.refreshCall rt,
          ActionEffect.sendEmailCall newToken to_addr subject body])
      | none =>
        (Except.error ("Failed to send email: " ++ e.2),
         [ActionEffect.sendEmailCall token to_addr subject body])
    else
      (Except.error ("Failed to send email: " ++ e.2),
       [ActionEffect.sendEmailCall token to_addr subject body])

/-- The C3 scenario automation: active `send_email` automation. -/
def autoC3 : Automation :=
  { id := "auto-3", user_id := "user-3", name := "mailer",
    trigger_type := TriggerType.gmail_email,
    trigger_config := TriggerConfig.gmailEmail {},
    action_type := ActionType.send_email,
    action_config := ActionConfig.sendEmailCfg
      { to_template := "a@b.c", subject_template := "s", body_template := "b" },
    status := AutomationStatus.active, run_count := 0 }

/-- Profile whose stored Gmail access token is expired and which has a
refresh token. -/
def profC3 : Profile :=
  { id := "user-3", google_access_token := some "expired-token",
    google_refresh_token := some "refresh-token" }

/-- Provider behavior for the C3 scenario: the first (and only) send
call returns HTTP 401. -/
def extC3 : ExternalBehavior :=
  { createTaskHttp := Except.ok JsValue.null,
    gmailSendHttp := Except.error (401, "Invalid Credentials") }

/-- C3 counterexample to the claim as stated: in the scenario with a 401
on the first send and a refresh token present, the dispatcher performs
zero refresh calls and one (failed) send call and surfaces the failure —
not "exactly one refresh followed by exactly one retried send" (the
spec-modelled retrying dispatcher would have performed 1 refresh and 2
sends and succeeded). -/
theorem send_email_401_no_refresh_counterexample :
    (executeAutomation autoC3 (some profC3) [] extC3 "t0").success = false
    ∧ ((executeAutomation autoC3 (some profC3) [] extC3 "t0").effects.filter
        ActionEffect.isRefreshCall).length = 0
    ∧ ((executeAutomation autoC3 (some profC3) [] extC3 "t0").effects.filter
        ActionEffect.isSendEmailCall).length = 1
    ∧ ¬ ((executeAutomation autoC3 (some profC3) [] extC3 "t0").effects.filter
        ActionEffect.isRefreshCall).length = 1
    ∧ ((specSendEmailWithRetry "expired-token" "a@b.c" "s" "b"
          (some "refresh-token") "fresh-token"
          (Except.error (401, "Invalid Credentials")) (Except.ok JsValue.null)).2.filter
        ActionEffect.isRefreshCall).length = 1 := by
  refine ⟨rfl, rfl, rfl, ?_, rfl⟩
  decide

/-- Closed instance of the amended C3 theorem at the 401 scenario. -/
theorem send_email_dispatch_no_retry_witness :
    ((executeAutomation autoC3 (some profC3) [] extC3 "t0").effects.filter
        ActionEffect.isSendEmailCall).length = 1
    ∧ ((executeAutomation autoC3 (some profC3) [] extC3 "t0").effects.filter
        ActionEffect.isRefreshCall).length = 0 :=
  ⟨(send_email_dispatch_no_retry autoC3 profC3 [] extC3 "t0" _ rfl (by decide) rfl).1,
   (send_email_dispatch_no_retry autoC3 profC3 [] extC3 "t0" _ rfl (by decide) rfl).2.1⟩

/-! ### ClickUp webhook payload and extraction (lib/clickup-webhooks.ts) -/

/-- JS `x || d` for an optional string: `null`/`undefined`/`""` fall back
to the default. -/
def strOr (o : Option String) (d : String) : String :=
  match o with
  | some v => if v = "" then d else v
  | none => d

/-- An `\x7bid, name\x7d` sub-object reached through optional chaining
(`payload.task?.list?.id` and friends). -/
structure NamedRef where
  id : Option String := none
  name : Option String := none
deriving DecidableEq

/-- One `history_items[]` entry, restricted to the fields the extraction
reads (`before`/`after` are untyped in the source). -/
structure ClickUpHistoryItem where
  id : String := ""
  field : String
  before : JsValue := JsValue.undef
  after : JsValue := JsValue.undef
  userUsername : Option String := none

/-- The `payload.task` object, restricted to the fields the handler and
the extraction read. -/
structure ClickUpTaskObj where
  id : String
  name : String
  statusStatus : Option String := none
  description : Option String := none
  url : Option String := none
  creatorUsername : Option String := none
  assigneeUsernames : List String := []
  priorityName : Option String := none
  due_date : Option String := none
  list : NamedRef := {}
  folder : NamedRef := {}
  space : NamedRef := {}

/-- The inbound ClickUp webhook payload. -/
structure ClickUpWebhookPayload where
  webhook_id : String := ""
  event : String
  history_items : List ClickUpHistoryItem := []
  task_id : String
  task : Option ClickUpTaskObj := none

/-- One extracted change row. -/
structure ClickUpChange where
  field : String
  before : String
  after : String
  user : String
deriving DecidableEq

/-- The flat task snapshot `extractClickUpTaskData` produces. -/
structure ExtractedTask where
  id : String
  name : String
  status : String
  description : String
  url : String
  creator : String
  assignees : String
  priority : String
  due_date : String
  list_name : String
  folder_name : String
  space_name : String
deriving DecidableEq

structure ExtractedTaskData where
  task : ExtractedTask
  event : String
  changes : List ClickUpChange
deriving DecidableEq

/-- `', '`-join of the assignee usernames (JS `join(', ')`). -/
def joinComma : List String → String
  | [] => ""
  | [x] => x
  | x :: xs => x ++ ", " ++ joinComma xs

/-- The `history_items` mapping inside `extractClickUpTaskData`:
`String(item.before ?? '')`, `String(item.after ?? '')`,
`item.user?.username || 'unknown'`. -/
def extractChanges (items : List ClickUpHistoryItem) : List ClickUpChange :=
  items.map (fun it =>
    { field := it.field, before := jsToString it.before,
      after := jsToString it.after, user := strOr it.userUsername "unknown" })

/-- `extractClickUpTaskData(payload)` (lib/clickup-webhooks.ts): the
`payload.task ||` fallback object followed by the field-by-field `||`
defaults. -/
def extractClickUpTaskData (payload : ClickUpWebhookPayload) : ExtractedTaskData :=
  match payload.task with
  | some task =>
    { task :=
        { id := task.id,
          name := task.name,
          status := strOr task.statusStatus "unknown",
          description := strOr task.description "",
          url := strOr task.url ("https://app.clickup.com/t/" ++ task.id),
          creator := strOr task.creatorUsername "unknown",
          assignees := strOr (some (joinComma task.assigneeUsernames)) "",
          priority := strOr task.priorityName "none",
          due_date := strOr task.due_date "",
          list_name := strOr task.list.name "",
          folder_name := strOr task.folder.name "",
          space_name := strOr task.space.name "" },
      event := payload.event,
      changes := extractChanges payload.history_items }
  | none =>
    { task :=
        { id := payload.task_id,
          name := "Unknown Task",
          status := "unknown",
          description := "",
          url := "https://app.clickup.com/t/" ++ payload.task_id,
          creator := "unknown",
          assignees := "",
          priority := "none",
          due_date := "",
          list_name := "Unknown",
          folder_name := "Unknown",
          space_name := "Unknown" },
      event := payload.event,
      changes := extractChanges payload.history_items }

/-- `field.replace(/_/g, ' ')`. -/
def underscoresToSpaces (s : String) : String :=
  String.mk (s.data.map (fun c => if c = '_' then ' ' else c))

/-- One line of `formatChangeSummary` (the `before`/`after` truthiness
cases of the source). -/
def formatChangeLine (c : ClickUpChange) : String :=
  let fieldName := underscoresToSpaces c.field
  if c.before ≠ "" ∧ c.after ≠ "" then
    "• **" ++ fieldName ++ "** changed from \"" ++ c.before ++ "\" to \""
      ++ c.after ++ "\" by " ++ c.user
  else if c.after ≠ "" then
    "• **" ++ fieldName ++ "** set to \"" ++ c.after ++ "\" by " ++ c.user
  else if c.before ≠ "" then
    "• **" ++ fieldName ++ "** \"" ++ c.before ++ "\" was removed by " ++ c.user
  else
    "• **" ++ fieldName ++ "** was modified by " ++ c.user

/-- `'\n'`-join. -/
def joinNewline : List String → String
  | [] => ""
  | [x] => x
  | x :: xs => x ++ "\n" ++ joinNewline xs

/-- `formatChangeSummary(changes)` (lib/clickup-webhooks.ts). -/
def formatChangeSummary (changes : List ClickUpChange) : String :=
  if changes = [] then "No specific changes recorded."
  else joinNewline (changes.map formatChangeLine)

def changeToJs (c : ClickUpChange) : JsValue :=
  JsValue.obj [("field", JsValue.str c.field), ("before", JsValue.str c.before),
    ("after", JsValue.str c.after), ("user", JsValue.str c.user)]

/-- A JS array represented as an object keyed by decimal indices (this
matches JS property lookup `'0' in arr` for the index keys the templates
can use; the `length` property is not modelled). -/
def listToIndexedObj (l : List JsValue) : List (String × JsValue) :=
  l.enum.map (fun p => (toString p.1, p.2))

/-- The `triggerData` object the ClickUp webhook handler passes to the
action (`\x7b task, event, changes, change_summary \x7d`). -/
def clickupTriggerData (td : ExtractedTaskData) : List (String × JsValue) :=
  [("task", JsValue.obj
      [("id", JsValue.str td.task.id), ("name", JsValue.str td.task.name),
       ("status", JsValue.str td.task.status),
       ("description", JsValue.str td.task.description),
       ("url", JsValue.str td.task.url), ("creator", JsValue.str td.task.creator),
       ("assignees", JsValue.str td.task.assignees),
       ("priority", JsValue.str td.task.priority),
       ("due_date", JsValue.str td.task.due_date),
       ("list_name", JsValue.str td.task.list_name),
       ("folder_name", JsValue.str td.task.folder_name),
       ("space_name", JsValue.str td.task.space_name)]),
   ("event", JsValue.str td.event),
   ("changes", JsValue.obj (listToIndexedObj (td.changes.map changeToJs))),
   ("change_summary", JsValue.str (formatChangeSummary td.changes))]

/-! ### ClickUp webhook POST handler (api/webhooks/clickup, part_006) -/

inductive ClickUpWebhookOutcome where
  | notFound
  | inactive
  | filteredOut
  | eventFiltered
  | executed (r : ExecOutcome)

/-- One `if (triggerConfig.X && payload.task?.Y?.id !== triggerConfig.X)`
scope check: a falsy (absent or empty) configured id never filters; a
truthy one filters unless the payload carries exactly that id. -/
def scopeMismatch (cfgField payloadField : Option String) : Bool :=
  match cfgField with
  | some v => if v = "" then false else (if payloadField = some v then false else true)
  | none => false

/-- What the handler returns and persists. -/
structure WebhookResponse where
  outcome : ClickUpWebhookOutcome
  newLogs : List LogRow
  effects : List ActionEffect

/-- The ClickUp webhook `POST` handler after webhook-id resolution:
inactive check, the three scope filters, the event-membership test, then
extraction and dispatch. -/
def clickupWebhookPOST (auto : Option Automation) (payload : ClickUpWebhookPayload)
    (profile : Option Profile) (ext : ExternalBehavior) (now : String) :
    WebhookResponse :=
  match auto with
  | none => { outcome := ClickUpWebhookOutcome.notFound, newLogs := [], effects := [] }
  | some a =>
    if a.status ≠ AutomationStatus.active then
      { outcome := ClickUpWebhookOutcome.inactive, newLogs := [], effects := [] }
    else
      let cfg := asClickUpTaskConfig a.trigger_config
      if scopeMismatch cfg.list_id (payload.task.bind (fun t => t.list.id)) then
        { outcome := ClickUpWebhookOutcome.filteredOut, newLogs := [], effects := [] }
      else if scopeMismatch cfg.folder_id (payload.task.bind (fun t => t.folder.id)) then
        { outcome := ClickUpWebhookOutcome.filteredOut, newLogs := [], effects := [] }
      else if scopeMismatch cfg.space_id (payload.task.bind (fun t => t.space.id)) then
        { outcome := ClickUpWebhookOutcome.filteredOut, newLogs := [], effects := [] }
      else if ! (cfg.events.contains payload.event) then
        { outcome := ClickUpWebhookOutcome.eventFiltered, newLogs := [], effects := [] }
      else
        let td := extractClickUpTaskData payload
        let r := executeClickUpAutomation a profile (clickupTriggerData td) ext now
        { outcome := ClickUpWebhookOutcome.executed r, newLogs := r.newLogs,
          effects := r.effects }

/-! ### Claim C6: filtered ClickUp webhooks cause no action and no log -/

/-- C6: for an inbound ClickUp webhook resolving to an active
automation, a failed scope check or an event name outside the configured
event set short-circuits with a filtered-status outcome, performs zero
provider action calls and writes zero `AutomationLog` rows. -/
theorem clickup_webhook_filtered_no_action
    (a : Automation) (cfg : ClickUpTaskTriggerConfig)
    (payload : ClickUpWebhookPayload) (profile : Option Profile)
    (ext : ExternalBehavior) (now : String)
    (hact : a.status = AutomationStatus.active)
    (hcfg : a.trigger_config = TriggerConfig.clickupTask cfg)
    (hfail : scopeMismatch cfg.list_id (payload.task.bind (fun t => t.list.id)) = true
      ∨ scopeMismatch cfg.folder_id (payload.task.bind (fun t => t.folder.id)) = true
      ∨ scopeMismatch cfg.space_id (payload.task.bind (fun t => t.space.id)) = true
      ∨ cfg.events.contains payload.event = false) :
    ((clickupWebhookPOST (some a) payload profile ext now).outcome
        = ClickUpWebhookOutcome.filteredOut
      ∨ (clickupWebhookPOST (some a) payload profile ext now).outcome
        = ClickUpWebhookOutcome.eventFiltered)
    ∧ (clickupWebhookPOST (some a) payload profile ext now).newLogs = []
    ∧ (clickupWebhookPOST (some a) payload profile ext now).effects = [] := by
  have hcfg2 : asClickUpTaskConfig a.trigger_config = cfg := by rw [hcfg]; rfl
  simp only [clickupWebhookPOST, hact, hcfg2, ne_eq, not_true_eq_false, if_false,
    Bool.false_eq_true]
  cases h1 : scopeMismatch cfg.list_id (payload.task.bind (fun t => t.list.id)) with
  | true => simp
  | false =>
    cases h2 : scopeMismatch cfg.folder_id (payload.task.bind (fun t => t.folder.id)) with
    | true => simp
    | false =>
      cases h3 : scopeMismatch cfg.space_id (payload.task.bind (fun t => t.space.id)) with
      | true => simp
      | false =>
        cases h4 : cfg.events.contains payload.event with
        | false => simp
        | true =>
          rcases hfail with h | h | h | h
          · rw [h1] at h; cases h
          · rw [h2] at h; cases h
          · rw [h3] at h; cases h
          · rw [h4] at h; cases h

/-- The end-to-end scenario 2 automation: a `clickup_task_comment_posted`
trigger whose resolved provider event set is `["taskCommentPosted"]`. -/
def autoC6 : Automation :=
  { id := "auto-6", user_id := "user-6", name := "comment-watch",
    trigger_type := TriggerType.clickup_task_comment_posted,
    trigger_config := TriggerConfig.clickupTask
      { team_id := "team-1", events := ["taskCommentPosted"] },
    action_type := ActionType.send_email,
    action_config := ActionConfig.sendEmailCfg
      { to_template := "a@b.c", subject_template := "s", body_template := "b" },
    status := AutomationStatus.active, run_count := 0 }

/-- A `taskStatusUpdated` payload for the C6 scenario. -/
def payloadC6 : ClickUpWebhookPayload :=
  { event := "taskStatusUpdated", task_id := "task-1" }

/-- Closed instance of the C6 theorem: the mismatched-event scenario
yields a filtered outcome with zero action calls and zero log rows. -/
theorem clickup_webhook_filtered_no_action_witness :
    ((clickupWebhookPOST (some autoC6) payloadC6 none extC1 "t0").outcome
        = ClickUpWebhookOutcome.filteredOut
      ∨ (clickupWebhookPOST (some autoC6) payloadC6 none extC1 "t0").outcome
        = ClickUpWebhookOutcome.eventFiltered)
    ∧ (clickupWebhookPOST (some autoC6) payloadC6 none extC1 "t0").newLogs = []
    ∧ (clickupWebhookPOST (some autoC6) payloadC6 none extC1 "t0").effects = [] :=
  clickup_webhook_filtered_no_action autoC6
    { team_id := "team-1", events := ["taskCommentPosted"] }
    payloadC6 none extC1 "t0" rfl rfl
    (Or.inr (Or.inr (Or.inr (by decide))))

/-! ### Gmail push notification handling (route.ts, per-automation step)

`handleGmailPushNotification` decodes the Pub/Sub envelope, loads the
user's active Gmail automations and runs, for each automation inside a
`try`/`catch`, the steps modelled by `processGmailAutomation` below: pick
the start cursor, list incremental history, persist the new cursor, then
process the listed messages.  The history listing and the per-message
loop body are supplied as functions: the loop body covers both the real
pipeline (`gmailProcMsg`) and bodies whose awaited database writes
reject, which is what the `catch` is for. -/

/-- `const lastHistoryId = automation.gmail_history_id ||
messageData.historyId` — the truthy-or of the stored cursor and the
envelope cursor. -/
def startCursor (stored : Option String) (envelopeHistoryId : String) : String :=
  match stored with
  | some s => if s = "" then envelopeHistoryId else s
  | none => envelopeHistoryId

/-- Observable steps of one per-automation iteration. -/
inductive GmailEffect where
  | listHistory (cursor : String)
  | persistCursor (automationId newCursor : String)
  | processMessage (msgId : String)
deriving DecidableEq

/-- The `for (const message of messages)` loop: each message is
processed in order; a thrown error aborts the remaining messages (it is
caught by the per-automation `catch`). -/
def runGmailMessages
    (procMsg : (String × EmailData) → Except String (Option ExecOutcome)) :
    List (String × EmailData) → List GmailEffect × List ExecOutcome × Option String
  | [] => ([], [], none)
  | m :: ms =>
    match procMsg m with
    | Except.ok r =>
      let rest := runGmailMessages procMsg ms
      (GmailEffect.processMessage m.1 :: rest.1,
       (match r with
         | some x => x :: rest.2.1
         | none => rest.2.1),
       rest.2.2)
    | Except.error err => ([GmailEffect.processMessage m.1], [], some err)

/-- Result of one per-automation iteration: the stored
`gmail_history_id` after the iteration, the ordered effect trace, the
pushed dispatch results, and the error captured by the `catch` (if
any). -/
structure GmailAutomationResult where
  storedHistoryId : Option String
  trace : List GmailEffect
  results : List ExecOutcome
  caught : Option String

/-- One iteration of the automation loop of
`handleGmailPushNotification`: compute the start cursor, call the
history listing, persist the returned cursor onto the automation
immediately, then run the message loop. A failed listing leaves the
stored cursor unchanged. -/
def processGmailAutomation (auto : Automation) (envelopeHistoryId : String)
    (history : String → Except String (List (String × EmailData) × String))
    (procMsg : (String × EmailData) → Except String (Option ExecOutcome)) :
    GmailAutomationResult :=
  match history (startCursor auto.gmail_history_id envelopeHistoryId) with
  | Except.error e =>
    { storedHistoryId := auto.gmail_history_id,
      trace := [GmailEffect.listHistory (startCursor auto.gmail_history_id envelopeHistoryId)],
      results := [], caught := some e }
  | Except.ok (msgs, newHid) =>
    { storedHistoryId := some newHid,
      trace := GmailEffect.listHistory (startCursor auto.gmail_history_id envelopeHistoryId)
        :: GmailEffect.persistCursor auto.id newHid :: (runGmailMessages procMsg msgs).1,
      results := (runGmailMessages procMsg msgs).2.1,
      caught := (runGmailMessages procMsg msgs).2.2 }

/-- The `\x7b email: emailData \x7d` trigger-data context built from an
extracted message (`references` as an index-keyed object; the
attachments array is not modelled). -/
def emailTriggerData (e : EmailData) : List (String × JsValue) :=
  [("email", JsValue.obj
      [("id", JsValue.str e.id), ("threadId", JsValue.str e.threadId),
       ("from", JsValue.str e.from_addr), ("to", JsValue.str e.to_addr),
       ("subject", JsValue.str e.subject), ("date", JsValue.str e.date),
       ("snippet", JsValue.str e.snippet), ("body", JsValue.str e.body),
       ("htmlBody", JsValue.str e.htmlBody),
       ("hasAttachment", JsValue.bool e.hasAttachment),
       ("attachmentCount", JsValue.num (Int.ofNat e.attachmentCount)),
       ("isReply", JsValue.bool e.isReply),
       ("inReplyTo", match e.inReplyTo with
         | some v => JsValue.str v
         | none => JsValue.null),
       ("references", JsValue.obj
          (listToIndexedObj (e.references.map JsValue.str)))])]

/-- The real loop body of the message loop: match the extracted email
against the trigger config and, on a match, dispatch through
`executeAutomation` (which never itself throws — the throwing awaits the
`catch` protects against are the database writes, covered by the generic
`procMsg` parameter of `processGmailAutomation`). -/
def gmailProcMsg (auto : Automation) (profile : Option Profile)
    (ext : ExternalBehavior) (now : String) (m : String × EmailData) :
    Except String (Option ExecOutcome) :=
  let cfg := asGmailEmailConfig auto.trigger_config
  if emailMatchesTrigger m.2 cfg then
    Except.ok (some (executeAutomation auto profile (emailTriggerData m.2) ext now))
  else Except.ok none

/-! ### Claim C2: choice of the history start cursor -/

/-- C2 (amended): the per-automation history listing starts from
`automation.gmail_history_id || envelope.historyId`: whenever the stored
cursor is present and nonempty it is used as the start cursor — the
envelope's `historyId` is ignored (no numeric maximum is taken), and the
envelope cursor is used only when the stored cursor is absent or
empty. -/
theorem gmail_history_cursor_choice (auto : Automation) (envelopeHistoryId : String)
    (history : String → Except String (List (String × EmailData) × String))
    (procMsg : (String × EmailData) → Except String (Option ExecOutcome)) :
    (processGmailAutomation auto envelopeHistoryId history procMsg).trace.head?
      = some (GmailEffect.listHistory (startCursor auto.gmail_history_id envelopeHistoryId))
    ∧ (∀ s : String, auto.gmail_history_id = some s → s ≠ "" →
        startCursor auto.gmail_history_id envelopeHistoryId = s)
    ∧ (auto.gmail_history_id = none →
        startCursor auto.gmail_history_id envelopeHistoryId = envelopeHistoryId)
    ∧ (auto.gmail_history_id = some "" →
        startCursor auto.gmail_history_id envelopeHistoryId = envelopeHistoryId) := by
  refine ⟨?_, ?_, ?_, ?_⟩
  · unfold processGmailAutomation
    cases history (startCursor auto.gmail_history_id envelopeHistoryId) with
    | error e => rfl
    | ok pr =>
      obtain ⟨msgs, newHid⟩ := pr
      rfl
  · intro s hs hne
    rw [hs]
    simp [startCursor, hne]
  · intro hs
    rw [hs]
    rfl
  · intro hs
    rw [hs]
    rfl

/-- Decimal parse for the spec-modelled numeric comparison. -/
def decDigits? (l : List Char) : Option Nat :=
  if l ≠ [] ∧ l.all (fun c => c.isDigit) then
    some (l.foldl (fun acc c => acc * 10 + (c.toNat - 48)) 0)
  else none

/-- Modelled from the spec: "fetch provider history since
`max(automation.gmail_history_id, envelope.historyId)`" — the
numerically larger of the two cursors.  The handler's code takes no such
maximum; this definition exists only to state the divergence. -/
def specMaxHistoryId (stored envelope : String) : String :=
  if (decDigits? envelope.data).getD 0 ≤ (decDigits? stored.data).getD 0 then stored
  else envelope

/-- C2 scenario automation: stored cursor `"5"`. -/
def autoC2 : Automation :=
  { id := "auto-2", user_id := "user-2", name := "gmail-watcher",
    trigger_type := TriggerType.gmail_email,
    trigger_config := TriggerConfig.gmailEmail {},
    action_type := ActionType.send_email,
    action_config := ActionConfig.sendEmailCfg
      { to_template := "a@b.c", subject_template := "s", body_template := "b" },
    gmail_history_id := some "5",
    status := AutomationStatus.active, run_count := 0 }

/-- History oracle for the C2 scenario. -/
def histC2 : String → Except String (List (String × EmailData) × String) :=
  fun _ => Except.ok ([], "11")

/-- Message-loop body for the C2 scenario (no messages arrive anyway). -/
def procC2 : (String × EmailData) → Except String (Option ExecOutcome) :=
  fun _ => Except.ok none

/-- C2 counterexample to the claim as stated: with stored cursor `"5"`
and envelope `historyId` `"10"` — both present, the envelope numerically
larger — the handler lists history from `"5"`, not from the numerically
larger `"10"` the spec's `max` would pick. -/
theorem gmail_cursor_not_numeric_max :
    (processGmailAutomation autoC2 "10" histC2 procC2).trace.head?
      = some (GmailEffect.listHistory "5")
    ∧ specMaxHistoryId "5" "10" = "10"
    ∧ ("5" : String) ≠ "10" := by
  refine ⟨rfl, by decide, by decide⟩

/-- Closed instance of the amended C2 theorem: in the same scenario the
theorem yields the head `listHistory` effect and, the stored cursor
being present and nonempty, a start cursor equal to it. -/
theorem gmail_history_cursor_choice_witness :
    (processGmailAutomation autoC2 "10" histC2 procC2).trace.head?
      = some (GmailEffect.listHistory (startCursor autoC2.gmail_history_id "10"))
    ∧ startCursor autoC2.gmail_history_id "10" = "5" :=
  ⟨(gmail_history_cursor_choice autoC2 "10" histC2 procC2).1,
   (gmail_history_cursor_choice autoC2 "10" histC2 procC2).2.1 "5" rfl (by decide)⟩

/-! ### Claim C7: cursor persisted before message processing -/

/-- C7: when the history listing returns, the new cursor is persisted
onto the automation before any message of the batch is processed: the
stored `gmail_history_id` equals the new cursor whatever the message
loop does (including a body that throws partway through the batch), and
in the effect trace the `persistCursor` effect strictly precedes every
`processMessage` effect. -/
theorem gmail_cursor_persisted_before_processing
    (auto : Automation) (envelopeHistoryId : String)
    (history : String → Except String (List (String × EmailData) × String))
    (procMsg : (String × EmailData) → Except String (Option ExecOutcome))
    (msgs : List (String × EmailData)) (newHid : String)
    (hh : history (startCursor auto.gmail_history_id envelopeHistoryId)
      = Except.ok (msgs, newHid)) :
    (processGmailAutomation auto envelopeHistoryId history procMsg).storedHistoryId
      = some newHid
    ∧ (∀ (i : Nat) (e : String),
        (processGmailAutomation auto envelopeHistoryId history procMsg).trace.get? i
          = some (GmailEffect.processMessage e) →
        ∃ j, j < i
          ∧ (processGmailAutomation auto envelopeHistoryId history procMsg).trace.get? j
            = some (GmailEffect.persistCursor auto.id newHid)) := by
  unfold processGmailAutomation
  rw [hh]
  refine ⟨rfl, ?_⟩
  intro i e hi
  match i with
  | 0 => cases hi
  | 1 => cases hi
  | k + 2 => exact ⟨1, by omega, rfl⟩

/-- C7 scenario automation: no stored cursor yet. -/
def autoC7 : Automation :=
  { id := "auto-7", user_id := "user-7", name := "gmail-watcher-7",
    trigger_type := TriggerType.gmail_email,
    trigger_config := TriggerConfig.gmailEmail {},
    action_type := ActionType.send_email,
    action_config := ActionConfig.sendEmailCfg
      { to_template := "a@b.c", subject_template := "s", body_template := "b" },
    status := AutomationStatus.active, run_count := 0 }

/-- History oracle for the C7 scenario: two new messages, new cursor
`"99"`. -/
def histC7 : String → Except String (List (String × EmailData) × String) :=
  fun _ => Except.ok ([("m1", {}), ("m2", {})], "99")

/-- A message-loop body that fails on the first message of the batch
(an awaited database write rejecting). -/
def procFailC7 : (String × EmailData) → Except String (Option ExecOutcome) :=
  fun m => if m.1 = "m1" then Except.error "db write failed" else Except.ok none

/-- Closed instance of the C7 theorem: with the loop body failing
partway through the batch, the stored cursor already reflects `"99"`. -/
theorem gmail_cursor_persisted_before_processing_witness :
    (processGmailAutomation autoC7 "77" histC7 procFailC7).storedHistoryId = some "99"
    ∧ (processGmailAutomation autoC7 "77" histC7 procFailC7).caught
        = some "db write failed" :=
  ⟨(gmail_cursor_persisted_before_processing autoC7 "77" histC7 procFailC7
      [("m1", {}), ("m2", {})] "99" rfl).1,
   by decide⟩

/-! ### Claim C10: `createAutomation` (lib/automations.ts) -/

/-- `CreateAutomationInput` (lib/types.ts): the caller-facing creation
payload.  It has no `status`, `webhook_id` or `webhook_secret` field. -/
structure CreateAutomationInput where
  name : String
  description : Option String := none
  trigger_type : TriggerType
  trigger_config : TriggerConfig
  action_type : ActionType
  action_config : ActionConfig

/-- One lowercase hexadecimal digit (`0123456789abcdef`). -/
def hexDigit (n : Nat) : Char :=
  if n < 10 then Char.ofNat (48 + n) else Char.ofNat (87 + n)

/-- `Buffer.toString('hex')` of one byte: two lowercase hex digits. -/
def byteToHexChars : List Nat → List Char
  | [] => []
  | b :: bs => hexDigit (b / 16) :: hexDigit (b % 16) :: byteToHexChars bs

/-- `randomBytes(n).toString('hex')`, with the random bytes supplied as
input. -/
def bytesToHex (bs : List Nat) : String :=
  String.mk (byteToHexChars bs)

def isLowerHexChar (c : Char) : Bool :=
  (48 ≤ c.toNat && c.toNat ≤ 57) || (97 ≤ c.toNat && c.toNat ≤ 102)

/-- `createAutomation(supabase, userId, input)`: generates
`webhook_id = randomBytes(16).toString('hex')` and
`webhook_secret = randomBytes(32).toString('hex')` and inserts the row
with `status: 'active'`; the database supplies the fresh id and the
timestamps (parameters here), `run_count` starts at its column default 0
and the watch/webhook columns start null. -/
def createAutomation (userId : String) (input : CreateAutomationInput)
    (bytes16 bytes32 : List Nat) (freshId now : String) : Automation :=
  { id := freshId,
    user_id := userId,
    name := input.name,
    description := input.description,
    trigger_type := input.trigger_type,
    trigger_config := input.trigger_config,
    action_type := input.action_type,
    action_config := input.action_config,
    webhook_id := some (bytesToHex bytes16),
    webhook_secret := some (bytesToHex bytes32),
    gmail_history_id := none,
    gmail_watch_expiration := none,
    clickup_webhook_id := none,
    status := AutomationStatus.active,
    last_run_at := none,
    last_error := none,
    run_count := 0,
    created_at := now,
    updated_at := now }

theorem hexDigit_isLowerHex : ∀ n < 16, isLowerHexChar (hexDigit n) = true := by decide

theorem byteToHexChars_length (bs : List Nat) :
    (byteToHexChars bs).length = 2 * bs.length := by
  induction bs with
  | nil => rfl
  | cons b bs ih =>
    simp only [byteToHexChars, List.length_cons, ih]
    omega

theorem byteToHexChars_all_hex (bs : List Nat) (hb : ∀ b ∈ bs, b < 256) :
    ∀ c ∈ byteToHexChars bs, isLowerHexChar c = true := by
  induction bs with
  | nil => intro c hc; cases hc
  | cons b bs ih =>
    intro c hc
    have hblt : b < 256 := hb b (List.mem_cons_self b bs)
    have hdiv : b / 16 < 16 := Nat.div_lt_of_lt_mul (by omega)
    have hmod : b % 16 < 16 := Nat.mod_lt b (by omega)
    rcases hc with _ | ⟨_, hc⟩
    · exact hexDigit_isLowerHex _ hdiv
    · rcases hc with _ | ⟨_, hc⟩
      · exact hexDigit_isLowerHex _ hmod
      · exact ih (fun x hx => hb x (List.mem_cons_of_mem b hx)) c hc

/-- C10: every automation returned by `createAutomation` has status
`active` regardless of the input, and carries a freshly generated
`webhook_id` of 32 lowercase-hex characters and a `webhook_secret` of 64
lowercase-hex characters; `CreateAutomationInput` carries no
status/webhook fields, so the row is born active (it is demoted to
`error` only afterwards if watch setup fails). -/
theorem createAutomation_active_and_hex_ids
    (userId : String) (input : CreateAutomationInput)
    (bytes16 bytes32 : List Nat) (freshId now : String)
    (h16len : bytes16.length = 16) (h16 : ∀ b ∈ bytes16, b < 256)
    (h32len : bytes32.length = 32) (h32 : ∀ b ∈ bytes32, b < 256) :
    (createAutomation userId input bytes16 bytes32 freshId now).status
      = AutomationStatus.active
    ∧ (createAutomation userId input bytes16 bytes32 freshId now).webhook_id
      = some (bytesToHex bytes16)
    ∧ (bytesToHex bytes16).length = 32
    ∧ (∀ c ∈ (bytesToHex bytes16).data, isLowerHexChar c = true)
    ∧ (createAutomation userId input bytes16 bytes32 freshId now).webhook_secret
      = some (bytesToHex bytes32)
    ∧ (bytesToHex bytes32).length = 64
    ∧ (∀ c ∈ (bytesToHex bytes32).data, isLowerHexChar c = true)
    ∧ (createAutomation userId input bytes16 bytes32 freshId now).run_count = 0
    ∧ (createAutomation userId input bytes16 bytes32 freshId now).clickup_webhook_id = none
    ∧ (createAutomation userId input bytes16 bytes32 freshId now).gmail_history_id = none := by
  refine ⟨rfl, rfl, ?_, ?_, rfl, ?_, ?_, rfl, rfl, rfl⟩
  · show (byteToHexChars bytes16).length = 32
    rw [byteToHexChars_length, h16len]
  · exact byteToHexChars_all_hex bytes16 h16
  · show (byteToHexChars bytes32).length = 64
    rw [byteToHexChars_length, h32len]
  · exact byteToHexChars_all_hex bytes32 h32

/-- Sample creation input for the C10 witness (note it cannot mention
`status` or webhook identifiers). -/
def inputC10 : CreateAutomationInput :=
  { name := "invoice-watch",
    trigger_type := TriggerType.gmail_email,
    trigger_config := TriggerConfig.gmailEmail
      { subject_contains := some "invoice" },
    action_type := ActionType.clickup_create_task,
    action_config := ActionConfig.clickupCreateTask
      { list_id := "list-1", title_template := "\x7b\x7bemail.subject\x7d\x7d" } }

/-- Closed instance of the C10 theorem at concrete random bytes. -/
theorem createAutomation_active_and_hex_ids_witness :
    (createAutomation "user-10" inputC10 (List.range 16) (List.range 32)
        "auto-10" "t0").status = AutomationStatus.active
    ∧ (bytesToHex (List.range 16)).length = 32
    ∧ (bytesToHex (List.range 32)).length = 64 := by
  have h := createAutomation_active_and_hex_ids "user-10" inputC10
    (List.range 16) (List.range 32) "auto-10" "t0"
    (by decide) (by decide) (by decide) (by decide)
  exact ⟨h.1, h.2.2.1, h.2.2.2.2.2.1⟩

end CRM
